import Mathlib

/-!
Shallow embedding of `src/components/mass_properties.rs` from the bevy_xpbd
repository (the mass-property data model of a rigid-body physics engine).

The Rust `Scalar` type (an IEEE float) is embedded as `SVal`: an exact
rational together with the IEEE special values `+inf`, `-inf` and `nan`.
Arithmetic follows the IEEE special-value rules (`1/0 = +inf`, `0 * inf = nan`,
comparisons with `nan` are false, ...) but finite arithmetic is exact:
rounding error is out of scope of this development.

The crate compiles in one of two mutually exclusive configurations,
`feature = "2d"` and `feature = "3d"`; the two variants of each item are
embedded side by side in the namespaces `TwoD` and `ThreeD`.
-/

/-- The embedded scalar: an exact rational or one of the IEEE special values. -/
inductive SVal where
| fin (q : ℚ)
| inf
| neginf
| nan
deriving DecidableEq

namespace SVal

/-- IEEE addition on the embedded scalar (exact in the finite case). -/
def add : SVal → SVal → SVal
| nan, _ => nan
| _, nan => nan
| fin a, fin b => fin (a + b)
| fin _, inf => inf
| inf, fin _ => inf
| fin _, neginf => neginf
| neginf, fin _ => neginf
| inf, inf => inf
| neginf, neginf => neginf
| inf, neginf => nan
| neginf, inf => nan

/-- IEEE negation on the embedded scalar. -/
def neg : SVal → SVal
| fin a => fin (-a)
| inf => neginf
| neginf => inf
| nan => nan

/-- IEEE subtraction on the embedded scalar. -/
def sub (a b : SVal) : SVal := add a (neg b)

/-- IEEE multiplication on the embedded scalar (exact in the finite case);
`0 * inf = nan` as in IEEE 754. -/
def mul : SVal → SVal → SVal
| nan, _ => nan
| _, nan => nan
| fin a, fin b => fin (a * b)
| fin a, inf => if 0 < a then inf else if a < 0 then neginf else nan
| inf, fin a => if 0 < a then inf else if a < 0 then neginf else nan
| fin a, neginf => if 0 < a then neginf else if a < 0 then inf else nan
| neginf, fin a => if 0 < a then neginf else if a < 0 then inf else nan
| inf, inf => inf
| inf, neginf => neginf
| neginf, inf => neginf
| neginf, neginf => inf

/-- IEEE division on the embedded scalar; the finite zero is the positive
zero, so `a / 0 = +inf` for `a > 0` (this is the `1.0 / 0.0` path of the
Rust code). The finite quotient is kept exact (idealized, no rounding);
`SVal.fdiv32` further below refines this case with IEEE binary32 rounding,
for properties where rounding and overflow are load-bearing. -/
def div : SVal → SVal → SVal
| nan, _ => nan
| _, nan => nan
| fin a, fin b =>
    if b = 0 then (if 0 < a then inf else if a < 0 then neginf else nan)
    else fin (a / b)
| fin _, inf => fin 0
| fin _, neginf => fin 0
| inf, fin b => if b < 0 then neginf else inf
| neginf, fin b => if b < 0 then inf else neginf
| inf, inf => nan
| inf, neginf => nan
| neginf, inf => nan
| neginf, neginf => nan

/-- IEEE strict comparison: every comparison with `nan` is false. -/
def slt : SVal → SVal → Bool
| nan, _ => false
| _, nan => false
| fin a, fin b => decide (a < b)
| neginf, neginf => false
| neginf, _ => true
| _, neginf => false
| inf, inf => false
| _, inf => true
| inf, _ => false

/-- IEEE non-strict comparison: every comparison with `nan` is false. -/
def sle : SVal → SVal → Bool
| nan, _ => false
| _, nan => false
| fin a, fin b => decide (a ≤ b)
| neginf, _ => true
| _, neginf => false
| _, inf => true
| inf, _ => false

/-- Rust `Scalar::is_finite`: true exactly on the non-special values. -/
def isFinite : SVal → Bool
| fin _ => true
| _ => false

end SVal

/-- A 2D vector of embedded scalars (the crate's `Vector` in planar mode). -/
structure Vec2 where
  x : SVal
  y : SVal
deriving DecidableEq

/-- glam `Vec2::length_squared`, i.e. `x*x + y*y`. -/
def Vec2.lengthSquared (v : Vec2) : SVal :=
  SVal.add (SVal.mul v.x v.x) (SVal.mul v.y v.y)

/-- A 3D vector of embedded scalars (the crate's `Vector` in spatial mode). -/
structure Vec3 where
  x : SVal
  y : SVal
  z : SVal
deriving DecidableEq

/-- nalgebra `Vector3::norm_squared` (also glam `length_squared`):
`x*x + y*y + z*z`. -/
def Vec3.normSquared (v : Vec3) : SVal :=
  SVal.add (SVal.add (SVal.mul v.x v.x) (SVal.mul v.y v.y)) (SVal.mul v.z v.z)

/-- Component-wise product of a 3D vector with a scalar. -/
def Vec3.scale (v : Vec3) (s : SVal) : Vec3 :=
  ⟨SVal.mul v.x s, SVal.mul v.y s, SVal.mul v.z s⟩

/-- The 3D cross product over the embedded scalar. -/
def Vec3.cross (a b : Vec3) : Vec3 :=
  ⟨SVal.sub (SVal.mul a.y b.z) (SVal.mul a.z b.y),
   SVal.sub (SVal.mul a.z b.x) (SVal.mul a.x b.z),
   SVal.sub (SVal.mul a.x b.y) (SVal.mul a.y b.x)⟩

/-- The 3D dot product over the embedded scalar. -/
def Vec3.dot (a b : Vec3) : SVal :=
  SVal.add (SVal.add (SVal.mul a.x b.x) (SVal.mul a.y b.y)) (SVal.mul a.z b.z)

/-- A 3x3 matrix of embedded scalars (`Matrix3` of the crate, glam `Mat3`);
`mij` is the entry in row `i`, column `j`. -/
structure Matrix3 where
  m00 : SVal
  m01 : SVal
  m02 : SVal
  m10 : SVal
  m11 : SVal
  m12 : SVal
  m20 : SVal
  m21 : SVal
  m22 : SVal
deriving DecidableEq

namespace Matrix3

/-- `Matrix3::ZERO`. -/
def ZERO : Matrix3 :=
  ⟨SVal.fin 0, SVal.fin 0, SVal.fin 0,
   SVal.fin 0, SVal.fin 0, SVal.fin 0,
   SVal.fin 0, SVal.fin 0, SVal.fin 0⟩

/-- Entry-wise matrix addition. -/
def add (a b : Matrix3) : Matrix3 :=
  ⟨SVal.add a.m00 b.m00, SVal.add a.m01 b.m01, SVal.add a.m02 b.m02,
   SVal.add a.m10 b.m10, SVal.add a.m11 b.m11, SVal.add a.m12 b.m12,
   SVal.add a.m20 b.m20, SVal.add a.m21 b.m21, SVal.add a.m22 b.m22⟩

/-- Entry-wise product of a matrix with a scalar on the right
(nalgebra `matrix * scalar`). -/
def mulScalar (a : Matrix3) (s : SVal) : Matrix3 :=
  ⟨SVal.mul a.m00 s, SVal.mul a.m01 s, SVal.mul a.m02 s,
   SVal.mul a.m10 s, SVal.mul a.m11 s, SVal.mul a.m12 s,
   SVal.mul a.m20 s, SVal.mul a.m21 s, SVal.mul a.m22 s⟩

/-- nalgebra `Matrix3::from_diagonal_element`. -/
def fromDiagonalElement (d : SVal) : Matrix3 :=
  ⟨d, SVal.fin 0, SVal.fin 0,
   SVal.fin 0, d, SVal.fin 0,
   SVal.fin 0, SVal.fin 0, d⟩

/-- Column 0 of the matrix (glam `x_axis`). -/
def xAxis (a : Matrix3) : Vec3 := ⟨a.m00, a.m10, a.m20⟩

/-- Column 1 of the matrix (glam `y_axis`). -/
def yAxis (a : Matrix3) : Vec3 := ⟨a.m01, a.m11, a.m21⟩

/-- Column 2 of the matrix (glam `z_axis`). -/
def zAxis (a : Matrix3) : Vec3 := ⟨a.m02, a.m12, a.m22⟩

/-- glam `Mat3::from_cols`. -/
def fromCols (c0 c1 c2 : Vec3) : Matrix3 :=
  ⟨c0.x, c1.x, c2.x,
   c0.y, c1.y, c2.y,
   c0.z, c1.z, c2.z⟩

/-- Matrix transpose. -/
def transpose (a : Matrix3) : Matrix3 :=
  ⟨a.m00, a.m10, a.m20,
   a.m01, a.m11, a.m21,
   a.m02, a.m12, a.m22⟩

/-- glam `Mat3::inverse`: the transposed cofactor columns scaled by the
reciprocal of the determinant. There is no singularity guard in release
builds, so a singular input flows through `1/0` and `0 * inf`. -/
def inverse (a : Matrix3) : Matrix3 :=
  let tmp0 := Vec3.cross (yAxis a) (zAxis a)
  let tmp1 := Vec3.cross (zAxis a) (xAxis a)
  let tmp2 := Vec3.cross (xAxis a) (yAxis a)
  let det := Vec3.dot (zAxis a) tmp2
  let invDet := SVal.div (SVal.fin 1) det
  transpose (fromCols (tmp0.scale invDet) (tmp1.scale invDet) (tmp2.scale invDet))

end Matrix3

/-- nalgebra `offset * offset.transpose()`: the outer product, entry `ij`
is `a i * b j`. -/
def Vec3.mulTranspose (a b : Vec3) : Matrix3 :=
  ⟨SVal.mul a.x b.x, SVal.mul a.x b.y, SVal.mul a.x b.z,
   SVal.mul a.y b.x, SVal.mul a.y b.y, SVal.mul a.y b.z,
   SVal.mul a.z b.x, SVal.mul a.z b.y, SVal.mul a.z b.z⟩

/-- `Mass(pub Scalar)`. -/
structure Mass where
  val : SVal
deriving DecidableEq

/-- `Mass::ZERO`. -/
def Mass.ZERO : Mass := ⟨SVal.fin 0⟩

/-- `InverseMass(pub Scalar)`. -/
structure InverseMass where
  val : SVal
deriving DecidableEq

/-- `InverseMass::ZERO`. -/
def InverseMass.ZERO : InverseMass := ⟨SVal.fin 0⟩

namespace TwoD

/-- The planar `Rotation` component (a cosine/sine pair); `Inertia::rotated`
ignores it in 2D. -/
structure Rotation where
  cos : SVal
  sin : SVal
deriving DecidableEq

/-- `Inertia(pub Scalar)` under `feature = "2d"`. -/
structure Inertia where
  val : SVal
deriving DecidableEq

/-- `InverseInertia(pub Scalar)` under `feature = "2d"`. -/
structure InverseInertia where
  val : SVal
deriving DecidableEq

/-- `Inertia::ZERO` (2D). -/
def Inertia.ZERO : Inertia := ⟨SVal.fin 0⟩

/-- `Inertia::rotated` (2D): returns `*self`, the rotation is ignored. -/
def Inertia.rotated (i : Inertia) (_rot : Rotation) : Inertia := i

/-- `Inertia::inverse` (2D): `InverseInertia(1.0 / self.0)`. -/
def Inertia.inverse (i : Inertia) : InverseInertia :=
  ⟨SVal.div (SVal.fin 1) i.val⟩

/-- `Inertia::shifted` (2D): `self.0 + offset.length_squared() * mass` when
`mass > 0.0 && mass.is_finite()`, otherwise `self.0`. -/
def Inertia.shifted (i : Inertia) (mass : SVal) (offset : Vec2) : SVal :=
  if SVal.slt (SVal.fin 0) mass && SVal.isFinite mass then
    SVal.add i.val (SVal.mul offset.lengthSquared mass)
  else
    i.val

/-- `InverseInertia::ZERO` (2D). -/
def InverseInertia.ZERO : InverseInertia := ⟨SVal.fin 0⟩

/-- `InverseInertia::rotated` (2D): returns `*self`, the rotation is
ignored. -/
def InverseInertia.rotated (i : InverseInertia) (_rot : Rotation) : InverseInertia := i

/-- `InverseInertia::inverse` (2D): `Inertia(1.0 / self.0)`. -/
def InverseInertia.inverse (i : InverseInertia) : Inertia :=
  ⟨SVal.div (SVal.fin 1) i.val⟩

/-- `CenterOfMass(pub Vector)` in planar mode. -/
structure CenterOfMass where
  val : Vec2
deriving DecidableEq

/-- `CenterOfMass::ZERO` (2D). -/
def CenterOfMass.ZERO : CenterOfMass := ⟨⟨SVal.fin 0, SVal.fin 0⟩⟩

/-- The raw output of the external geometry engine's
`shape.mass_properties(density)` call in planar mode, as read by
`ColliderMassProperties::new`: the engine's mass, its own inverse mass, the
principal angular inertia and the local centroid.

The field `inv_principal_inertia` is Modelled from the spec: the spec's
derivation step 2 states that the geometry engine also computes the inverse
inertia itself ("InverseInertia similarly from the geometry engine's own
inverse computation"); the engine's own inverse is guarded, mapping a zero
moment to a zero inverse (mirroring its guarded inverse-mass convention),
never to an infinity. The 2D source code never reads this field. -/
structure ShapeMassProps where
  mass : SVal
  inv_mass : SVal
  principal_inertia : SVal
  inv_principal_inertia : SVal
  local_com : Vec2

/-- The collider in planar mode, abstracted to the one thing
`ColliderMassProperties::new` uses: the black-box composite
`collider.shape_scaled().mass_properties(density)` of the external geometry
engine, as a function from the density to the raw mass properties. -/
structure Collider where
  shape_scaled_mass_properties : SVal → ShapeMassProps

/-- `ColliderMassProperties` under `feature = "2d"`. -/
structure ColliderMassProperties where
  mass : Mass
  inverse_mass : InverseMass
  inertia : Inertia
  inverse_inertia : InverseInertia
  center_of_mass : CenterOfMass

/-- `ColliderMassProperties::ZERO` (2D). -/
def ColliderMassProperties.ZERO : ColliderMassProperties :=
  { mass := Mass.ZERO
    inverse_mass := ⟨SVal.inf⟩
    inertia := Inertia.ZERO
    inverse_inertia := InverseInertia.ZERO
    center_of_mass := CenterOfMass.ZERO }

/-- `ColliderMassProperties::new` (2D): normalizes the raw engine output;
note that `inverse_inertia` is computed as `1.0 / props.principal_inertia()`. -/
def ColliderMassProperties.new (collider : Collider) (density : SVal) :
    ColliderMassProperties :=
  let props := collider.shape_scaled_mass_properties density
  { mass := ⟨props.mass⟩
    inverse_mass := ⟨props.inv_mass⟩
    inertia := ⟨props.principal_inertia⟩
    inverse_inertia := ⟨SVal.div (SVal.fin 1) props.principal_inertia⟩
    center_of_mass := ⟨props.local_com⟩ }

/-- `impl Default for ColliderMassProperties`: returns `Self::ZERO`. -/
def ColliderMassProperties.default : ColliderMassProperties :=
  ColliderMassProperties.ZERO

/-- `Collider::mass_properties`. Modelled from the spec: the method lives
outside the given source file; per the spec's aggregate-construction
contract it invokes the collider mass-property derivation
(`ColliderMassProperties::new`) on the same shape and density. -/
def Collider.mass_properties (collider : Collider) (density : SVal) :
    ColliderMassProperties :=
  ColliderMassProperties.new collider density

/-- `MassPropertiesBundle` under `feature = "2d"`. -/
structure MassPropertiesBundle where
  mass : Mass
  inverse_mass : InverseMass
  inertia : Inertia
  inverse_inertia : InverseInertia
  center_of_mass : CenterOfMass

/-- `MassPropertiesBundle::new_computed` (2D): destructures
`collider.mass_properties(density)` and copies its fields. -/
def MassPropertiesBundle.new_computed (collider : Collider) (density : SVal) :
    MassPropertiesBundle :=
  let props := collider.mass_properties density
  { mass := props.mass
    inverse_mass := props.inverse_mass
    inertia := props.inertia
    inverse_inertia := props.inverse_inertia
    center_of_mass := props.center_of_mass }

end TwoD

namespace ThreeD

/-- `Inertia(pub Matrix3)` under `feature = "3d"`. -/
structure Inertia where
  val : Matrix3
deriving DecidableEq

/-- `InverseInertia(pub Matrix3)` under `feature = "3d"`. -/
structure InverseInertia where
  val : Matrix3
deriving DecidableEq

/-- `Inertia::ZERO` (3D). -/
def Inertia.ZERO : Inertia := ⟨Matrix3.ZERO⟩

/-- `Inertia::inverse` (3D): `InverseInertia(self.0.inverse())`, the raw
glam matrix inverse with no singularity guard. -/
def Inertia.inverse (i : Inertia) : InverseInertia :=
  ⟨Matrix3.inverse i.val⟩

/-- `Inertia::shifted` (3D): when `mass > 0.0 && mass.is_finite()`, returns
`matrix + (diagonal_mat + offset * offset.transpose()) * mass` where
`diagonal_mat` is the diagonal matrix of `offset.norm_squared()`; otherwise
returns `self.0`. -/
def Inertia.shifted (i : Inertia) (mass : SVal) (offset : Vec3) : Matrix3 :=
  if SVal.slt (SVal.fin 0) mass && SVal.isFinite mass then
    Matrix3.add i.val
      (Matrix3.mulScalar
        (Matrix3.add (Matrix3.fromDiagonalElement offset.normSquared)
          (Vec3.mulTranspose offset offset))
        mass)
  else
    i.val

/-- `InverseInertia::ZERO` (3D). -/
def InverseInertia.ZERO : InverseInertia := ⟨Matrix3.ZERO⟩

/-- `InverseInertia::inverse` (3D): `Inertia(self.0.inverse())`. -/
def InverseInertia.inverse (i : InverseInertia) : Inertia :=
  ⟨Matrix3.inverse i.val⟩

/-- `CenterOfMass(pub Vector)` in spatial mode. -/
structure CenterOfMass where
  val : Vec3
deriving DecidableEq

/-- `CenterOfMass::ZERO` (3D). -/
def CenterOfMass.ZERO : CenterOfMass := ⟨⟨SVal.fin 0, SVal.fin 0, SVal.fin 0⟩⟩

/-- The raw output of the external geometry engine's
`shape.mass_properties(density)` call in spatial mode, as read by
`ColliderMassProperties::new`: the engine's mass, its own inverse mass, the
reconstructed inertia matrix, the engine's own reconstructed inverse
inertia matrix, and the local centroid. -/
structure ShapeMassProps where
  mass : SVal
  inv_mass : SVal
  reconstruct_inertia_matrix : Matrix3
  reconstruct_inverse_inertia_matrix : Matrix3
  local_com : Vec3

/-- The collider in spatial mode, abstracted to the black-box composite
`collider.shape_scaled().mass_properties(density)` of the external geometry
engine. -/
structure Collider where
  shape_scaled_mass_properties : SVal → ShapeMassProps

/-- `ColliderMassProperties` under `feature = "3d"`. -/
structure ColliderMassProperties where
  mass : Mass
  inverse_mass : InverseMass
  inertia : Inertia
  inverse_inertia : InverseInertia
  center_of_mass : CenterOfMass

/-- `ColliderMassProperties::ZERO` (3D). -/
def ColliderMassProperties.ZERO : ColliderMassProperties :=
  { mass := Mass.ZERO
    inverse_mass := ⟨SVal.inf⟩
    inertia := Inertia.ZERO
    inverse_inertia := InverseInertia.ZERO
    center_of_mass := CenterOfMass.ZERO }

/-- `ColliderMassProperties::new` (3D): normalizes the raw engine output;
both the inertia matrix and its inverse are taken from the engine's own
reconstruction. -/
def ColliderMassProperties.new (collider : Collider) (density : SVal) :
    ColliderMassProperties :=
  let props := collider.shape_scaled_mass_properties density
  { mass := ⟨props.mass⟩
    inverse_mass := ⟨props.inv_mass⟩
    inertia := ⟨props.reconstruct_inertia_matrix⟩
    inverse_inertia := ⟨props.reconstruct_inverse_inertia_matrix⟩
    center_of_mass := ⟨props.local_com⟩ }

/-- `impl Default for ColliderMassProperties`: returns `Self::ZERO`. -/
def ColliderMassProperties.default : ColliderMassProperties :=
  ColliderMassProperties.ZERO

/-- `Collider::mass_properties`. Modelled from the spec: the method lives
outside the given source file; per the spec's aggregate-construction
contract it invokes the collider mass-property derivation
(`ColliderMassProperties::new`) on the same shape and density. -/
def Collider.mass_properties (collider : Collider) (density : SVal) :
    ColliderMassProperties :=
  ColliderMassProperties.new collider density

/-- `MassPropertiesBundle` under `feature = "3d"`. -/
structure MassPropertiesBundle where
  mass : Mass
  inverse_mass : InverseMass
  inertia : Inertia
  inverse_inertia : InverseInertia
  center_of_mass : CenterOfMass

/-- `MassPropertiesBundle::new_computed` (3D): destructures
`collider.mass_properties(density)` and copies its fields. -/
def MassPropertiesBundle.new_computed (collider : Collider) (density : SVal) :
    MassPropertiesBundle :=
  let props := collider.mass_properties density
  { mass := props.mass
    inverse_mass := props.inverse_mass
    inertia := props.inertia
    inverse_inertia := props.inverse_inertia
    center_of_mass := props.center_of_mass }

end ThreeD

/-! Refinement of the scalar division to IEEE binary32 semantics. The
crate's default `Scalar` is `f32`, whose division rounds its exact quotient
to the nearest representable binary32 value (ties to even) and overflows to
infinity. The exact `SVal.div` above idealizes this; the following
definitions model the rounding, for the properties where it matters. -/

/-- The nearest integer to a rational, ties to the even integer. -/
def nearestEvenInt (m : ℚ) : ℤ :=
  if m - ⌊m⌋ < 1 / 2 then ⌊m⌋
  else if 1 / 2 < m - ⌊m⌋ then ⌊m⌋ + 1
  else if ⌊m⌋ % 2 = 0 then ⌊m⌋ else ⌊m⌋ + 1

/-- Round-to-nearest-even into IEEE binary32: exact zero stays zero;
magnitudes at or above the overflow threshold `2^128 - 2^103` (the midpoint
between the largest finite binary32 value `(2^24 - 1) * 2^104` and `2^128`)
round to the infinity of their sign; every other value is rounded to the
nearest representable `±(n * 2^p)` with integer mantissa `n < 2^24` and
exponent `p ≥ -149` (ties to even; `Int.log 2` is the floor of the base-2
logarithm, so `|q| / 2^p` is the mantissa scaled into `[2^23, 2^24)` in the
normal range, and the exponent clamp at `-149` produces the subnormals). -/
def round32 (q : ℚ) : SVal :=
  if q = 0 then SVal.fin 0
  else if (2 : ℚ) ^ (128 : ℕ) - 2 ^ (103 : ℕ) ≤ |q| then
    (if 0 < q then SVal.inf else SVal.neginf)
  else
    let p : ℤ := max (Int.log 2 |q| - 23) (-149)
    let n : ℤ := nearestEvenInt (|q| / 2 ^ p)
    SVal.fin ((if 0 < q then 1 else -1) * n * (2 : ℚ) ^ p)

namespace SVal

/-- IEEE binary32 division on the embedded scalar: the same special-value
rules as `SVal.div`, but the finite quotient is correctly rounded by
`round32` instead of kept exact. This is the semantics of `1.0 / self.0`
on the crate's default `Scalar = f32`. -/
def fdiv32 : SVal → SVal → SVal
| nan, _ => nan
| _, nan => nan
| fin a, fin b =>
    if b = 0 then (if 0 < a then inf else if a < 0 then neginf else nan)
    else round32 (a / b)
| fin _, inf => fin 0
| fin _, neginf => fin 0
| inf, fin b => if b < 0 then neginf else inf
| neginf, fin b => if b < 0 then inf else neginf
| inf, inf => nan
| inf, neginf => nan
| neginf, inf => nan
| neginf, neginf => nan

end SVal

/-- `Inertia::inverse` (2D) under binary32 scalar semantics:
`InverseInertia(1.0 / self.0)` with the division correctly rounded. -/
def TwoD.Inertia.inverse32 (i : TwoD.Inertia) : TwoD.InverseInertia :=
  ⟨SVal.fdiv32 (SVal.fin 1) i.val⟩

/-- `InverseInertia::inverse` (2D) under binary32 scalar semantics:
`Inertia(1.0 / self.0)` with the division correctly rounded. -/
def TwoD.InverseInertia.inverse32 (i : TwoD.InverseInertia) : TwoD.Inertia :=
  ⟨SVal.fdiv32 (SVal.fin 1) i.val⟩

/-! Helper lemmas about the embedded scalar and matrix arithmetic. -/

theorem SVal.add_fin_zero : ∀ a : SVal, SVal.add a (SVal.fin 0) = a := by
  intro a
  cases a <;> simp [SVal.add]

theorem SVal.fin_zero_add : ∀ a : SVal, SVal.add (SVal.fin 0) a = a := by
  intro a
  cases a <;> simp [SVal.add]

theorem SVal.mul_comm' : ∀ a b : SVal, SVal.mul a b = SVal.mul b a := by
  intro a b
  cases a <;> cases b <;> simp [SVal.mul, mul_comm]

theorem SVal.fin_zero_mul (q : ℚ) : SVal.mul (SVal.fin 0) (SVal.fin q) = SVal.fin 0 := by
  simp [SVal.mul]

theorem SVal.guard_true (q : ℚ) (h : 0 < q) :
    (SVal.slt (SVal.fin 0) (SVal.fin q) && SVal.isFinite (SVal.fin q)) = true := by
  simp [SVal.slt, SVal.isFinite, h]

theorem SVal.guard_false (m : SVal)
    (h : SVal.sle m (SVal.fin 0) = true ∨ SVal.isFinite m = false) :
    (SVal.slt (SVal.fin 0) m && SVal.isFinite m) = false := by
  cases m with
  | fin a =>
      have ha : a ≤ 0 := by
        rcases h with h | h
        · exact of_decide_eq_true (by simpa [SVal.sle] using h)
        · simp [SVal.isFinite] at h
      simp only [SVal.slt, SVal.isFinite, Bool.and_true]
      exact decide_eq_false (not_lt.mpr ha)
  | inf => simp [SVal.isFinite]
  | neginf => simp [SVal.slt]
  | nan => simp [SVal.slt]

theorem Matrix3.add_ZERO (m : Matrix3) : Matrix3.add m Matrix3.ZERO = m := by
  cases m
  simp [Matrix3.add, Matrix3.ZERO, SVal.add_fin_zero]

theorem Matrix3.mulScalar_ZERO_fin (q : ℚ) :
    Matrix3.mulScalar Matrix3.ZERO (SVal.fin q) = Matrix3.ZERO := by
  simp [Matrix3.mulScalar, Matrix3.ZERO, SVal.fin_zero_mul]

theorem Vec2.lengthSquared_zero :
    Vec2.lengthSquared ⟨SVal.fin 0, SVal.fin 0⟩ = SVal.fin 0 := by
  norm_num [Vec2.lengthSquared, SVal.mul, SVal.add]

theorem Matrix3.shift_term_zero_offset :
    Matrix3.add
      (Matrix3.fromDiagonalElement (Vec3.normSquared ⟨SVal.fin 0, SVal.fin 0, SVal.fin 0⟩))
      (Vec3.mulTranspose ⟨SVal.fin 0, SVal.fin 0, SVal.fin 0⟩
        ⟨SVal.fin 0, SVal.fin 0, SVal.fin 0⟩) = Matrix3.ZERO := by
  norm_num [Matrix3.add, Matrix3.fromDiagonalElement, Matrix3.ZERO, Vec3.normSquared,
    Vec3.mulTranspose, SVal.mul, SVal.add]

/-! Claim theorems. -/

/-- Claim C8: in planar (2D) mode, `Inertia::rotated` and
`InverseInertia::rotated` are the identity: for every inertia value and
every rotation, the returned value equals the original. -/
theorem C8_planar_rotated_identity (i : TwoD.Inertia) (j : TwoD.InverseInertia)
    (r : TwoD.Rotation) :
    TwoD.Inertia.rotated i r = i ∧ TwoD.InverseInertia.rotated j r = j :=
  ⟨rfl, rfl⟩

/-- Claim C6: `ColliderMassProperties::ZERO` has mass 0, inverse mass
positive infinity, zero inertia, zero inverse inertia, and zero center of
mass, and `ColliderMassProperties::default()` equals
`ColliderMassProperties::ZERO`, in both the planar and the spatial
configuration. -/
theorem C6_collider_mass_properties_zero :
    (TwoD.ColliderMassProperties.ZERO.mass = Mass.ZERO ∧
     TwoD.ColliderMassProperties.ZERO.inverse_mass = ⟨SVal.inf⟩ ∧
     TwoD.ColliderMassProperties.ZERO.inertia = TwoD.Inertia.ZERO ∧
     TwoD.ColliderMassProperties.ZERO.inverse_inertia = TwoD.InverseInertia.ZERO ∧
     TwoD.ColliderMassProperties.ZERO.center_of_mass = TwoD.CenterOfMass.ZERO ∧
     TwoD.ColliderMassProperties.default = TwoD.ColliderMassProperties.ZERO) ∧
    (ThreeD.ColliderMassProperties.ZERO.mass = Mass.ZERO ∧
     ThreeD.ColliderMassProperties.ZERO.inverse_mass = ⟨SVal.inf⟩ ∧
     ThreeD.ColliderMassProperties.ZERO.inertia = ThreeD.Inertia.ZERO ∧
     ThreeD.ColliderMassProperties.ZERO.inverse_inertia = ThreeD.InverseInertia.ZERO ∧
     ThreeD.ColliderMassProperties.ZERO.center_of_mass = ThreeD.CenterOfMass.ZERO ∧
     ThreeD.ColliderMassProperties.default = ThreeD.ColliderMassProperties.ZERO) :=
  ⟨⟨rfl, rfl, rfl, rfl, rfl, rfl⟩, ⟨rfl, rfl, rfl, rfl, rfl, rfl⟩⟩

/-- Claim C7: for every collider shape and every density,
`MassPropertiesBundle::new_computed(collider, density)` produces `Mass`,
`InverseMass`, `Inertia`, `InverseInertia` and `CenterOfMass` fields equal,
field by field, to those of `ColliderMassProperties::new(collider, density)`,
in both the planar and the spatial configuration. -/
theorem C7_bundle_matches_new (c2 : TwoD.Collider) (c3 : ThreeD.Collider)
    (d : SVal) :
    ((TwoD.MassPropertiesBundle.new_computed c2 d).mass =
        (TwoD.ColliderMassProperties.new c2 d).mass ∧
     (TwoD.MassPropertiesBundle.new_computed c2 d).inverse_mass =
        (TwoD.ColliderMassProperties.new c2 d).inverse_mass ∧
     (TwoD.MassPropertiesBundle.new_computed c2 d).inertia =
        (TwoD.ColliderMassProperties.new c2 d).inertia ∧
     (TwoD.MassPropertiesBundle.new_computed c2 d).inverse_inertia =
        (TwoD.ColliderMassProperties.new c2 d).inverse_inertia ∧
     (TwoD.MassPropertiesBundle.new_computed c2 d).center_of_mass =
        (TwoD.ColliderMassProperties.new c2 d).center_of_mass) ∧
    ((ThreeD.MassPropertiesBundle.new_computed c3 d).mass =
        (ThreeD.ColliderMassProperties.new c3 d).mass ∧
     (ThreeD.MassPropertiesBundle.new_computed c3 d).inverse_mass =
        (ThreeD.ColliderMassProperties.new c3 d).inverse_mass ∧
     (ThreeD.MassPropertiesBundle.new_computed c3 d).inertia =
        (ThreeD.ColliderMassProperties.new c3 d).inertia ∧
     (ThreeD.MassPropertiesBundle.new_computed c3 d).inverse_inertia =
        (ThreeD.ColliderMassProperties.new c3 d).inverse_inertia ∧
     (ThreeD.MassPropertiesBundle.new_computed c3 d).center_of_mass =
        (ThreeD.ColliderMassProperties.new c3 d).center_of_mass) :=
  ⟨⟨rfl, rfl, rfl, rfl, rfl⟩, ⟨rfl, rfl, rfl, rfl, rfl⟩⟩

/-- Claim C2, counterexample: the claim "`Inertia::ZERO.inverse() ==
InverseInertia::ZERO` and `InverseInertia::ZERO.inverse() == Inertia::ZERO`"
is false on the code: in planar mode `Inertia::inverse` is the unguarded
`1.0 / self.0`, so inverting the zero inertia yields `1/0 = +inf`,
not zero. -/
theorem C2_zero_inverse_not_zero :
    ¬(TwoD.Inertia.inverse TwoD.Inertia.ZERO = TwoD.InverseInertia.ZERO ∧
      TwoD.InverseInertia.inverse TwoD.InverseInertia.ZERO = TwoD.Inertia.ZERO) := by
  intro h
  have h1 := h.1
  simp only [TwoD.Inertia.inverse, TwoD.Inertia.ZERO, TwoD.InverseInertia.ZERO,
    SVal.div, TwoD.InverseInertia.mk.injEq] at h1
  exact SVal.noConfusion h1

/-- Claim C2, amended: inverting the zero inertia has no special boundary
guard; in planar mode both `Inertia::ZERO.inverse()` and
`InverseInertia::ZERO.inverse()` are the IEEE quotient `1/0 = +inf`, and in
spatial mode both are the all-NaN matrix produced by the unguarded glam
matrix inverse of the zero matrix (`0 * (1/det)` with `det = 0`). -/
theorem C2_zero_inverse_boundary :
    TwoD.Inertia.inverse TwoD.Inertia.ZERO = ⟨SVal.inf⟩ ∧
    TwoD.InverseInertia.inverse TwoD.InverseInertia.ZERO = ⟨SVal.inf⟩ ∧
    ThreeD.Inertia.inverse ThreeD.Inertia.ZERO =
      ⟨⟨SVal.nan, SVal.nan, SVal.nan, SVal.nan, SVal.nan, SVal.nan,
        SVal.nan, SVal.nan, SVal.nan⟩⟩ ∧
    ThreeD.InverseInertia.inverse ThreeD.InverseInertia.ZERO =
      ⟨⟨SVal.nan, SVal.nan, SVal.nan, SVal.nan, SVal.nan, SVal.nan,
        SVal.nan, SVal.nan, SVal.nan⟩⟩ := by
  refine ⟨?_, ?_, ?_, ?_⟩ <;>
    norm_num [TwoD.Inertia.inverse, TwoD.Inertia.ZERO, TwoD.InverseInertia.inverse,
      TwoD.InverseInertia.ZERO, ThreeD.Inertia.inverse, ThreeD.Inertia.ZERO,
      ThreeD.InverseInertia.inverse, ThreeD.InverseInertia.ZERO, Matrix3.inverse,
      Matrix3.ZERO, Matrix3.xAxis, Matrix3.yAxis, Matrix3.zAxis, Matrix3.fromCols,
      Matrix3.transpose, Vec3.cross, Vec3.dot, Vec3.scale, SVal.mul, SVal.add,
      SVal.sub, SVal.neg, SVal.div]

/-- Claim C3, counterexample: the 2D branch of `ColliderMassProperties::new`
re-derives the stored inverse inertia by division as
`1.0 / props.principal_inertia()` instead of taking the geometry engine's
own (guarded) inverse output. For the raw properties of a massless shape —
principal inertia `0`, engine's own inverse inertia `0` — the stored value
is `1/0 = +inf`, which differs from the engine's own inverse output. -/
theorem C3_planar_inverse_inertia_rederived :
    (TwoD.ColliderMassProperties.new
        ⟨fun _ => ⟨SVal.fin 0, SVal.fin 0, SVal.fin 0, SVal.fin 0,
          ⟨SVal.fin 0, SVal.fin 0⟩⟩⟩
        (SVal.fin 1)).inverse_inertia = ⟨SVal.inf⟩ ∧
    (⟨SVal.inf⟩ : TwoD.InverseInertia) ≠
      ⟨(⟨SVal.fin 0, SVal.fin 0, SVal.fin 0, SVal.fin 0,
          ⟨SVal.fin 0, SVal.fin 0⟩⟩ : TwoD.ShapeMassProps).inv_principal_inertia⟩ := by
  constructor
  · norm_num [TwoD.ColliderMassProperties.new, SVal.div]
  · simp [TwoD.InverseInertia.mk.injEq]

/-- Claim C3, amended: in `ColliderMassProperties::new` the stored
`InverseMass` is taken directly from the geometry engine's own inverse-mass
output (`props.inv_mass`) in both configurations, and the stored
`InverseInertia` is taken from the engine's own inverse reconstruction in
spatial mode — but in planar mode it is re-derived by division as
`1.0 / props.principal_inertia()`. -/
theorem C3_inverse_field_sources (c2 : TwoD.Collider) (c3 : ThreeD.Collider)
    (d : SVal) :
    (TwoD.ColliderMassProperties.new c2 d).inverse_mass =
      ⟨(c2.shape_scaled_mass_properties d).inv_mass⟩ ∧
    (TwoD.ColliderMassProperties.new c2 d).inverse_inertia =
      ⟨SVal.div (SVal.fin 1) (c2.shape_scaled_mass_properties d).principal_inertia⟩ ∧
    (ThreeD.ColliderMassProperties.new c3 d).inverse_mass =
      ⟨(c3.shape_scaled_mass_properties d).inv_mass⟩ ∧
    (ThreeD.ColliderMassProperties.new c3 d).inverse_inertia =
      ⟨(c3.shape_scaled_mass_properties d).reconstruct_inverse_inertia_matrix⟩ :=
  ⟨rfl, rfl, rfl, rfl⟩

/-- Unfolding lemma for the 2D `shifted` when the mass guard passes. -/
theorem TwoD.Inertia.shifted_pos_planar (i : TwoD.Inertia) (q : ℚ) (h : 0 < q) (o : Vec2) :
    TwoD.Inertia.shifted i (SVal.fin q) o =
      SVal.add i.val (SVal.mul o.lengthSquared (SVal.fin q)) := by
  unfold TwoD.Inertia.shifted
  rw [SVal.guard_true q h]
  exact if_pos rfl

/-- Unfolding lemma for the 2D `shifted` when the mass guard fails. -/
theorem TwoD.Inertia.shifted_id_planar (i : TwoD.Inertia) (m : SVal) (o : Vec2)
    (h : SVal.sle m (SVal.fin 0) = true ∨ SVal.isFinite m = false) :
    TwoD.Inertia.shifted i m o = i.val := by
  unfold TwoD.Inertia.shifted
  rw [SVal.guard_false m h]
  exact if_neg (by simp)

/-- Unfolding lemma for the 3D `shifted` when the mass guard passes. -/
theorem ThreeD.Inertia.shifted_pos_spatial (i : ThreeD.Inertia) (q : ℚ) (h : 0 < q) (o : Vec3) :
    ThreeD.Inertia.shifted i (SVal.fin q) o =
      Matrix3.add i.val
        (Matrix3.mulScalar
          (Matrix3.add (Matrix3.fromDiagonalElement o.normSquared)
            (Vec3.mulTranspose o o))
          (SVal.fin q)) := by
  unfold ThreeD.Inertia.shifted
  rw [SVal.guard_true q h]
  exact if_pos rfl

/-- Unfolding lemma for the 3D `shifted` when the mass guard fails. -/
theorem ThreeD.Inertia.shifted_id_spatial (i : ThreeD.Inertia) (m : SVal) (o : Vec3)
    (h : SVal.sle m (SVal.fin 0) = true ∨ SVal.isFinite m = false) :
    ThreeD.Inertia.shifted i m o = i.val := by
  unfold ThreeD.Inertia.shifted
  rw [SVal.guard_false m h]
  exact if_neg (by simp)

/-- Claim C1: at the concrete input `I = 0`, `mass = 1`, `offset = (1,0,0)`
the spatial `Inertia::shifted` returns `diag(1,1,1) + offset ⊗ offset =
diag(2,1,1)` — the code *adds* the outer product — whereas the claimed
parallel-axis result `I + mass * ((offsetᵗoffset)·Id − offset ⊗ offset)`
equals `diag(0,1,1)` at this input; the two differ. A point mass displaced
along the rotation axis must contribute nothing about that axis, so the
claim (the standard parallel-axis theorem) is right and the code's `+` is a
slip for `−`. -/
theorem C1_shifted_spatial_adds_outer_product :
    ThreeD.Inertia.shifted ⟨Matrix3.ZERO⟩ (SVal.fin 1)
        ⟨SVal.fin 1, SVal.fin 0, SVal.fin 0⟩ =
      ⟨SVal.fin 2, SVal.fin 0, SVal.fin 0,
       SVal.fin 0, SVal.fin 1, SVal.fin 0,
       SVal.fin 0, SVal.fin 0, SVal.fin 1⟩ ∧
    (⟨SVal.fin 2, SVal.fin 0, SVal.fin 0,
      SVal.fin 0, SVal.fin 1, SVal.fin 0,
      SVal.fin 0, SVal.fin 0, SVal.fin 1⟩ : Matrix3) ≠
      ⟨SVal.fin 0, SVal.fin 0, SVal.fin 0,
       SVal.fin 0, SVal.fin 1, SVal.fin 0,
       SVal.fin 0, SVal.fin 0, SVal.fin 1⟩ := by
  constructor
  · rw [ThreeD.Inertia.shifted_pos_spatial ⟨Matrix3.ZERO⟩ 1 one_pos]
    norm_num [Matrix3.ZERO, Matrix3.add, Matrix3.mulScalar, Matrix3.fromDiagonalElement,
      Vec3.normSquared, Vec3.mulTranspose, SVal.mul, SVal.add]
  · simp only [ne_eq, Matrix3.mk.injEq, SVal.fin.injEq]
    norm_num

/-- Evaluation of the binary32 rounding at `2^149`: the magnitude exceeds
the overflow threshold `2^128 - 2^103`, so the result is `+inf`. -/
theorem round32_two_pow_149 : round32 ((2 : ℚ) ^ (149 : ℕ)) = SVal.inf := by
  unfold round32
  rw [if_neg (by norm_num), if_pos (by rw [abs_of_pos (by positivity)]; norm_num),
    if_pos (by positivity)]

/-- Claim C4, counterexample: the claim is false of the code's actual
scalar type. Under the IEEE binary32 semantics of `1.0 / self.0`
(`Scalar = f32`, the crate's default), the double inversion does not
round-trip for every finite `I > 0`: at `I = 2^(-149)` — the least positive
binary32 value, finite and positive — the first inversion `1/I = 2^149`
overflows to `+inf`, and the second inversion returns `1/inf = 0 ≠ I`. -/
theorem C4_f32_roundtrip_cex :
    TwoD.InverseInertia.inverse32
        (TwoD.Inertia.inverse32 ⟨SVal.fin (((2 : ℚ) ^ (149 : ℕ))⁻¹)⟩) =
      ⟨SVal.fin 0⟩ ∧
    (⟨SVal.fin 0⟩ : TwoD.Inertia) ≠ ⟨SVal.fin (((2 : ℚ) ^ (149 : ℕ))⁻¹)⟩ := by
  have h0 : ((2 : ℚ) ^ (149 : ℕ))⁻¹ ≠ 0 := by positivity
  constructor
  · have h1 : TwoD.Inertia.inverse32 ⟨SVal.fin (((2 : ℚ) ^ (149 : ℕ))⁻¹)⟩ =
        TwoD.InverseInertia.mk SVal.inf := by
      show TwoD.InverseInertia.mk
          (SVal.fdiv32 (SVal.fin 1) (SVal.fin (((2 : ℚ) ^ (149 : ℕ))⁻¹))) = _
      simp only [SVal.fdiv32]
      rw [if_neg h0, one_div, inv_inv, round32_two_pow_149]
    rw [h1]
    rfl
  · simp only [ne_eq, TwoD.Inertia.mk.injEq, SVal.fin.injEq]
    intro h
    exact absurd h.symm h0

/-- Claim C4, amended: for every finite scalar inertia `I > 0`, inverting
twice round-trips exactly in planar mode — `I.inverse().inverse() == I` —
under exact (infinitely precise) scalar arithmetic. Under the code's IEEE
float scalar the round-trip is only approximate and fails outright for some
finite `I > 0` (rounding of `1/I`, and overflow to `+inf` for subnormal
`I`; see the counterexample above). -/
theorem C4_inverse_roundtrip (q : ℚ) (h : 0 < q) :
    TwoD.InverseInertia.inverse (TwoD.Inertia.inverse ⟨SVal.fin q⟩) = ⟨SVal.fin q⟩ := by
  have hq : q ≠ 0 := ne_of_gt h
  have h1q : 1 / q ≠ 0 := one_div_ne_zero hq
  simp [TwoD.Inertia.inverse, TwoD.InverseInertia.inverse, SVal.div, hq, h1q,
    one_div_one_div]

/-- Witness for C4 at `I = 2`. -/
theorem C4_inverse_roundtrip_witness :
    (0 : ℚ) < 2 ∧
    TwoD.InverseInertia.inverse (TwoD.Inertia.inverse ⟨SVal.fin 2⟩) = ⟨SVal.fin 2⟩ :=
  ⟨by norm_num, C4_inverse_roundtrip 2 (by norm_num)⟩

/-- Claim C5: for every inertia, every mass that is non-positive or
non-finite, and every offset, `Inertia::shifted` returns the original
inertia unchanged, in both the planar and the spatial configuration. -/
theorem C5_shifted_guard (i2 : TwoD.Inertia) (i3 : ThreeD.Inertia) (m : SVal)
    (o2 : Vec2) (o3 : Vec3)
    (h : SVal.sle m (SVal.fin 0) = true ∨ SVal.isFinite m = false) :
    TwoD.Inertia.shifted i2 m o2 = i2.val ∧
    ThreeD.Inertia.shifted i3 m o3 = i3.val :=
  ⟨TwoD.Inertia.shifted_id_planar i2 m o2 h, ThreeD.Inertia.shifted_id_spatial i3 m o3 h⟩

/-- Witness for C5 at mass `-1`. -/
theorem C5_shifted_guard_witness :
    (SVal.sle (SVal.fin (-1)) (SVal.fin 0) = true ∨
      SVal.isFinite (SVal.fin (-1)) = false) ∧
    (TwoD.Inertia.shifted ⟨SVal.fin 7⟩ (SVal.fin (-1)) ⟨SVal.fin 1, SVal.fin 2⟩ =
        SVal.fin 7 ∧
     ThreeD.Inertia.shifted ⟨Matrix3.ZERO⟩ (SVal.fin (-1))
        ⟨SVal.fin 1, SVal.fin 2, SVal.fin 3⟩ = Matrix3.ZERO) :=
  ⟨Or.inl (by norm_num [SVal.sle]),
   C5_shifted_guard ⟨SVal.fin 7⟩ ⟨Matrix3.ZERO⟩ (SVal.fin (-1))
     ⟨SVal.fin 1, SVal.fin 2⟩ ⟨SVal.fin 1, SVal.fin 2, SVal.fin 3⟩
     (Or.inl (by norm_num [SVal.sle]))⟩

/-- Claim C9: for every finite mass `m > 0` and every offset `o`, the planar
parallel-axis base case holds: `Inertia(0).shifted(m, o) == m * |o|²`. -/
theorem C9_parallel_axis_base (q : ℚ) (h : 0 < q) (o : Vec2) :
    TwoD.Inertia.shifted ⟨SVal.fin 0⟩ (SVal.fin q) o =
      SVal.mul (SVal.fin q) o.lengthSquared := by
  rw [TwoD.Inertia.shifted_pos_planar ⟨SVal.fin 0⟩ q h o]
  show SVal.add (SVal.fin 0) (SVal.mul o.lengthSquared (SVal.fin q)) = _
  rw [SVal.fin_zero_add]
  exact SVal.mul_comm' _ _

/-- Witness for C9 at `m = 2`, `o = (3, 4)`: the result is `2 * 25 = 50`. -/
theorem C9_parallel_axis_base_witness :
    (0 : ℚ) < 2 ∧
    TwoD.Inertia.shifted ⟨SVal.fin 0⟩ (SVal.fin 2) ⟨SVal.fin 3, SVal.fin 4⟩ =
      SVal.fin 50 :=
  ⟨by norm_num,
   (C9_parallel_axis_base 2 (by norm_num) ⟨SVal.fin 3, SVal.fin 4⟩).trans
     (by norm_num [Vec2.lengthSquared, SVal.mul, SVal.add])⟩

/-- Claim C10: for every inertia and every finite mass `m > 0`, shifting by
the zero offset is the identity, in both the planar and the spatial
configuration: the added term is exactly zero. -/
theorem C10_shifted_zero_offset (i2 : TwoD.Inertia) (i3 : ThreeD.Inertia)
    (q : ℚ) (h : 0 < q) :
    TwoD.Inertia.shifted i2 (SVal.fin q) ⟨SVal.fin 0, SVal.fin 0⟩ = i2.val ∧
    ThreeD.Inertia.shifted i3 (SVal.fin q) ⟨SVal.fin 0, SVal.fin 0, SVal.fin 0⟩ =
      i3.val := by
  constructor
  · rw [TwoD.Inertia.shifted_pos_planar i2 q h, Vec2.lengthSquared_zero, SVal.fin_zero_mul,
      SVal.add_fin_zero]
  · rw [ThreeD.Inertia.shifted_pos_spatial i3 q h, Matrix3.shift_term_zero_offset,
      Matrix3.mulScalar_ZERO_fin, Matrix3.add_ZERO]

/-- Witness for C10 at mass `3`, inertia `5` (2D) and the zero matrix (3D). -/
theorem C10_shifted_zero_offset_witness :
    (0 : ℚ) < 3 ∧
    (TwoD.Inertia.shifted ⟨SVal.fin 5⟩ (SVal.fin 3) ⟨SVal.fin 0, SVal.fin 0⟩ =
        SVal.fin 5 ∧
     ThreeD.Inertia.shifted ⟨Matrix3.ZERO⟩ (SVal.fin 3)
        ⟨SVal.fin 0, SVal.fin 0, SVal.fin 0⟩ = Matrix3.ZERO) :=
  ⟨by norm_num, C10_shifted_zero_offset ⟨SVal.fin 5⟩ ⟨Matrix3.ZERO⟩ 3 (by norm_num)⟩
